import Mathlib

/-!
Shallow embedding of the HistoFlow pipeline orchestration core
(fastapi_app/main.py, pipeline/pipeline_definition.py, pipeline/config.py,
pipeline/ops/embeddings.py, pipeline/ops/report_gen.py,
pipeline/ops/aggregate.py) together with theorems settling the
specification claims about it.

Modelling conventions:
- Python exceptions are `Except String`; a function that cannot raise has a
  plain (non-Except) result type or provably never returns `.error`.
- The Redis status store is modelled per task key as the list of records
  successfully persisted for that key, in write order; one store interaction
  either succeeds or raises, captured by `StoreOutcome`.
- The filesystem is a list of existing directory paths plus a list of
  (path, content) readable files.
- Wall-clock time is a natural-number counter threaded through the code in
  the order the source calls `datetime.now()`.
- External heavy computations (Dagster's op executor internals, model
  download, patch extraction, text generation) are oracles: functions or
  `Except` values supplied as parameters.
-/

namespace HistoFlow

/-- Task lifecycle states as stored in the `status` field of a task record. -/
inductive TaskStatus
  | queued
  | running
  | completed
  | failed
deriving DecidableEq, Repr

/-- One persisted task record (the `TaskStatus` pydantic model / the dicts
built in main.py).  `results` models the `{"success": True}` payload as
`some true`. -/
structure TaskRecord where
  status : TaskStatus
  start_time : Nat
  end_time : Option Nat
  error : Option String
  results : Option Bool
deriving DecidableEq, Repr

/-- Outcome of one interaction with the Redis store: the underlying
`redis_client.set` either succeeds or raises with a message. -/
inductive StoreOutcome
  | ok
  | err (msg : String)
deriving DecidableEq, Repr

/-- The raw `redis_client.set` call for a task key: on success the record is
appended to the persisted-write sequence for that key, on failure it raises. -/
def redis_set (o : StoreOutcome) (writes : List TaskRecord) (rec : TaskRecord) :
    Except String (List TaskRecord) :=
  match o with
  | StoreOutcome.ok => Except.ok (writes ++ [rec])
  | StoreOutcome.err m => Except.error m

/-- Python `try: body except Exception: handler` where the handler returns
normally: the result is never an exception. -/
def tryCatchAll (body : Except String α) (handler : String → α) : Except String α :=
  match body with
  | Except.ok v => Except.ok v
  | Except.error m => Except.ok (handler m)

/-- Embedding of `update_task_status` (main.py lines 74-78): attempts the
store write and catches every exception, logging it.  The result is the new
persisted-write sequence together with the log message, if any; the outer
`Except` is the exception channel seen by the caller. -/
def update_task_status (o : StoreOutcome) (writes : List TaskRecord)
    (rec : TaskRecord) : Except String (List TaskRecord × Option String) :=
  tryCatchAll
    ((redis_set o writes rec).map (fun ws => (ws, (none : Option String))))
    (fun m => (writes, some ("Failed to update status for task: " ++ m)))

/-- The persisted-write sequence after a call to `update_task_status`
(callers in main.py never see an exception from it, so they just continue
with whatever the store now holds). -/
def runStatusWrite (o : StoreOutcome) (writes : List TaskRecord)
    (rec : TaskRecord) : List TaskRecord :=
  match update_task_status o writes rec with
  | Except.ok p => p.1
  | Except.error _ => writes

/-- Filesystem model: the set of existing directories and the readable files
with their contents. -/
structure FileSystem where
  dirs : List String
deriving DecidableEq, Repr

/-- Embedding of `os.path.exists` on the directory model. -/
def os_path_exists (fs : FileSystem) (p : String) : Bool :=
  fs.dirs.any (fun q => q == p)

/-- Embedding of `os.makedirs(p, exist_ok=True)` / `Path.mkdir(parents=True,
exist_ok=True)`. -/
def os_makedirs (fs : FileSystem) (p : String) : FileSystem :=
  ⟨p :: fs.dirs⟩

/-- The two path fields of the merged `PipelineSettings` that the submission
path inspects (config.py lines 49, 52). -/
structure MergedSettings where
  wsi_folder : String
  output_folder : String
deriving DecidableEq, Repr

/-- Embedding of constructing `PipelineSettings` (config.py lines 85-96):
pydantic runs the per-field validators; `validate_input_folder` raises a
`ValidationError` when the WSI folder does not exist, and
`validate_output_folder` creates the output folder as a side effect.  Both
field validators run regardless of the other's outcome. -/
def validate_pipeline_settings (fs : FileSystem) (s : MergedSettings) :
    FileSystem × Except String MergedSettings :=
  let fs1 := os_makedirs fs s.output_folder
  if os_path_exists fs s.wsi_folder then
    (fs1, Except.ok s)
  else
    (fs1, Except.error ("Input WSI folder does not exist: " ++ s.wsi_folder))

/-- Everything `start_pipeline` leaves behind: the HTTP response (error
detail or the fresh task id), the filesystem, the records persisted under
the new task key, whether a task id was generated at all (main.py line 196
was reached), and the advanced clock. -/
structure SubmitResult where
  response : Except String String
  fs : FileSystem
  writes : List TaskRecord
  task_id_generated : Bool
  clockOut : Nat
deriving Repr

/-- Embedding of the `POST /run-pipeline` handler `start_pipeline`
(main.py lines 169-231) after the merge step: validate the merged settings
(line 185, pydantic validators), re-check the WSI folder (lines 188-189),
create the output folder (line 192), generate a task id (line 196), build
the initial `queued` record (lines 200-207) and store it through
`update_task_status` (line 211); any `ValidationError` is caught by the
outer handler (lines 229-231) and turned into an error response.  The
`except redis.exceptions.RedisError` branch (lines 212-214) only fires if
`update_task_status` raises. -/
def start_pipeline (fs0 : FileSystem) (o0 : StoreOutcome) (s : MergedSettings)
    (clock : Nat) : SubmitResult :=
  match validate_pipeline_settings fs0 s with
  | (fs1, Except.error m) =>
      ⟨Except.error ("Failed to start pipeline: " ++ m), fs1, [], false, clock⟩
  | (fs1, Except.ok s1) =>
      if os_path_exists fs1 s1.wsi_folder = false then
        ⟨Except.error ("WSI folder does not exist: " ++ s1.wsi_folder),
          fs1, [], false, clock⟩
      else
        let fs2 := os_makedirs fs1 s1.output_folder
        let init : TaskRecord :=
          ⟨TaskStatus.queued, clock, none, none, none⟩
        match update_task_status o0 [] init with
        | Except.ok p => ⟨Except.ok "task-id", fs2, p.1, true, clock + 1⟩
        | Except.error m =>
            ⟨Except.error ("Failed to initialize task: " ++ m), fs2, [], true,
              clock + 1⟩

/-- A per-stage retry policy (dagster `RetryPolicy`, pipeline_definition.py). -/
structure RetryPolicy where
  max_retries : Nat
  delay : Nat
deriving DecidableEq, Repr

/-- The retry policy attached to `process_embeddings_op`
(pipeline_definition.py line 26). -/
def process_embeddings_retry : RetryPolicy := ⟨2, 30⟩

/-- The retry policy attached to `process_report_gen_op`
(pipeline_definition.py line 39). -/
def process_report_gen_retry : RetryPolicy := ⟨2, 30⟩

/-- Modelled from the spec: the per-stage retry loop of the workflow engine
(the Dagster executor is external to src/).  Spec section 4.2: invoke the
stage; on failure, if attempts so far do not exceed `max_retries`, sleep
`delay` and re-invoke the same stage from scratch; once retries are
exhausted the stage's failure aborts the run.  The stage is an oracle
indexed by the attempt number; the result is the total number of
invocations paired with the outcome of the last attempt. -/
def runWithRetry (f : Nat → Except String Unit) :
    Nat → Nat → Nat × Except String Unit
  | retriesLeft, attempt =>
    match f attempt with
    | Except.ok v => (attempt + 1, Except.ok v)
    | Except.error m =>
      match retriesLeft with
      | 0 => (attempt + 1, Except.error m)
      | r + 1 => runWithRetry f r (attempt + 1)

/-- How many times each stage function was invoked during one run of the
chain. -/
structure StageCounts where
  c1 : Nat
  c2 : Nat
  c3 : Nat
  c4 : Nat
deriving DecidableEq, Repr

/-- Modelled from the spec: execution of the fixed linear chain
`load_config -> embeddings -> report_generation -> aggregation`
(pipeline_definition.py lines 52-61) by the external workflow engine, with
the retry policies declared in pipeline_definition.py (`load_config_op` and
`process_aggregation_op` carry no retry policy; the embeddings and
report-generation ops carry `max_retries = 2, delay = 30`).  A stage whose
retries are exhausted aborts the run: later stages are never invoked and
its error becomes the run's failure cause. -/
def execute_chain (s1 s2 s3 s4 : Nat → Except String Unit) :
    StageCounts × Except String Unit :=
  match runWithRetry s1 0 0 with
  | (n1, Except.error m) => (⟨n1, 0, 0, 0⟩, Except.error m)
  | (n1, Except.ok _) =>
    match runWithRetry s2 process_embeddings_retry.max_retries 0 with
    | (n2, Except.error m) => (⟨n1, n2, 0, 0⟩, Except.error m)
    | (n2, Except.ok _) =>
      match runWithRetry s3 process_report_gen_retry.max_retries 0 with
      | (n3, Except.error m) => (⟨n1, n2, n3, 0⟩, Except.error m)
      | (n3, Except.ok _) =>
        match runWithRetry s4 0 0 with
        | (n4, Except.error m) => (⟨n1, n2, n3, n4⟩, Except.error m)
        | (n4, Except.ok _) => (⟨n1, n2, n3, n4⟩, Except.ok ())

/-- Embedding of `run_pipeline_in_background` (main.py lines 80-167): build
the `running` record with a fresh `start_time` (lines 85-93), persist it
through `update_task_status` (line 97), execute the job (lines 123-133,
modelled by `execute_chain`), then set the terminal record: `completed`
with `results` on success, `failed` with the failure message on failure,
with `end_time` taken after execution (lines 135-151); the `except`
branches (lines 153-164) likewise produce a `failed` record, so the final
write (line 167) always carries a terminal status.  Returns the
persisted-write sequence, the stage invocation counts and the advanced
clock. -/
def run_pipeline_in_background (s1 s2 s3 s4 : Nat → Except String Unit)
    (o1 o2 : StoreOutcome) (writes0 : List TaskRecord) (clock : Nat) :
    List TaskRecord × StageCounts × Nat :=
  let t_run := clock
  let status_running : TaskRecord :=
    ⟨TaskStatus.running, t_run, none, none, none⟩
  let w1 := runStatusWrite o1 writes0 status_running
  let res := execute_chain s1 s2 s3 s4
  let t_end := clock + 1
  let final : TaskRecord :=
    match res.2 with
    | Except.ok _ =>
        ⟨TaskStatus.completed, t_run, some t_end, none, some true⟩
    | Except.error m =>
        ⟨TaskStatus.failed, t_run, some t_end, some m, none⟩
  let w2 := runStatusWrite o2 w1 final
  (w2, res.1, clock + 2)

/-- One full task lifecycle: the submission endpoint followed, when the
submission succeeded, by the background run it scheduled (main.py lines
217-223).  The first component is the complete sequence of records
persisted under the task's key. -/
def task_lifecycle (fs0 : FileSystem) (o0 o1 o2 : StoreOutcome)
    (s : MergedSettings) (s1 s2 s3 s4 : Nat → Except String Unit) :
    List TaskRecord × SubmitResult × StageCounts :=
  let sub := start_pipeline fs0 o0 s 0
  match sub.response with
  | Except.error _ => (sub.writes, sub, ⟨0, 0, 0, 0⟩)
  | Except.ok _ =>
    let r := run_pipeline_in_background s1 s2 s3 s4 o1 o2 sub.writes sub.clockOut
    (r.1, sub, r.2.1)

/-- Rank of a status in the lifecycle order
`queued -> running -> terminal`. -/
def statusRank : TaskStatus → Nat
  | TaskStatus.queued => 0
  | TaskStatus.running => 1
  | TaskStatus.completed => 2
  | TaskStatus.failed => 2

/-- Whether a status is terminal. -/
def isTerminal : TaskStatus → Bool
  | TaskStatus.completed => true
  | TaskStatus.failed => true
  | _ => false

/-- Every pair of consecutive statuses in the list is non-decreasing in
rank. -/
def ranksMonotone : List TaskStatus → Prop
  | [] => True
  | [_] => True
  | a :: b :: rest => statusRank a ≤ statusRank b ∧ ranksMonotone (b :: rest)

instance ranksMonotoneDec : (l : List TaskStatus) → Decidable (ranksMonotone l)
  | [] => Decidable.isTrue trivial
  | [_] => Decidable.isTrue trivial
  | a :: b :: rest =>
    @instDecidableAnd (statusRank a ≤ statusRank b) (ranksMonotone (b :: rest))
      (Nat.decLe _ _) (ranksMonotoneDec (b :: rest))

/-- The monotone-transition property of a sequence of statuses: consecutive
writes never decrease in rank, and from any terminal write on, every later
write has that same status. -/
def monotoneStatuses (l : List TaskStatus) : Prop :=
  ranksMonotone l ∧
  ∀ i j : Fin l.length, i.val ≤ j.val → isTerminal (l.get i) = true →
    l.get j = l.get i

instance (l : List TaskStatus) : Decidable (monotoneStatuses l) :=
  inferInstanceAs (Decidable (_ ∧ _))

/-! Configuration merging (main.py lines 176-185, config.py lines 44-83).
Python dicts are modelled as association lists where a later binding
shadows an earlier one, so that `dictGet (a ++ b) k` looks in `b` first:
this is exactly the semantics of the Python merge expression
`\x7b**a, **b\x7d`. -/

/-- Lookup in the association-list model of a Python dict: the last binding
for a key wins (later `**`-splats shadow earlier ones). -/
def dictGet (d : List (String × α)) (k : String) : Option α :=
  match d with
  | [] => none
  | (k1, v1) :: rest =>
    match dictGet rest k with
    | some w => some w
    | none => if k1 == k then some v1 else none

/-- Embedding of main.py line 181: the dict comprehension that drops the
`None`-valued entries from the caller-supplied config dict. -/
def drop_none_entries (d : List (String × Option α)) : List (String × α) :=
  d.filterMap (fun p => p.2.map (fun v => (p.1, v)))

/-- The dict produced by `pipeline_config.dict()` for declared fields
`fields`: pydantic `BaseSettings` gives each field its environment value
when the environment sets one and its declared default otherwise
(config.py lines 44-83). -/
def settings_dict (fields : List String) (defaults : String → α)
    (env : String → Option α) : List (String × α) :=
  fields.map (fun f => (f, (env f).getD (defaults f)))

/-- The dict produced by `config.dict()` for the caller-supplied request
body: every declared field, optional-valued (main.py lines 62-72). -/
def user_config_dict (fields : List String) (user : String → Option α) :
    List (String × Option α) :=
  fields.map (fun f => (f, user f))

/-- Embedding of main.py line 184: the merged dict
`\x7b**pipeline_config.dict(), **user_overrides\x7d`. -/
def merged_pipeline_data (fields : List String) (defaults : String → α)
    (env : String → Option α) (user : String → Option α) :
    List (String × α) :=
  settings_dict fields defaults env ++
    drop_none_entries (user_config_dict fields user)

/-- Stated from the spec's words, for comparison with the code's merge,
which is built from dict operations: the value of a field under the
precedence order user over environment over defaults, where a `null` or
absent user field does not override. -/
def spec_merged_value (defaults : String → α) (env : String → Option α)
    (user : String → Option α) (f : String) : α :=
  match user f with
  | some v => v
  | none =>
    match env f with
    | some v => v
    | none => defaults f

/-! Stage implementations (pipeline/ops). -/

/-- Readable files, as (path, content) pairs. -/
def readFile (files : List (String × String)) (p : String) : Option String :=
  match files.find? (fun q => q.1 == p) with
  | some q => some q.2
  | none => none

/-- Python `fname.endswith(".h5")`, embedded over the character list. -/
def endswith_h5 (s : String) : Bool :=
  s.data.reverse.take 3 == ['5', 'h', '.']

/-- Python `os.path.splitext(fname)[0]` for a file name ending in `.h5`:
drop the three extension characters. -/
def splitext_stem (s : String) : String :=
  String.mk (s.data.take (s.data.length - 3))

/-- One item of the list returned by the embeddings stage
(embeddings.py lines 80-85). -/
structure EmbOut where
  wsi_name : String
  hdf5_path : String
  status : String
  error : Option String
deriving DecidableEq, Repr

/-- Embedding of `run_embeddings` (embeddings.py lines 10-88): raise when
the WSI folder is missing (lines 30-31); the CTranspath download
(lines 32-38) and the patch extraction (lines 59-65) are external calls
that may raise, modelled as oracles; when the HDF5 directory is absent
return the empty list (lines 70-72); otherwise walk it and emit, for every
file ending in `.h5`, an item with status `success` and no error
(lines 75-88).  `walk` lists the (directory, filename) pairs the
`os.walk` visits. -/
def run_embeddings (wsi_folder_exists : Bool)
    (model_download : Except String Unit) (patching : Except String Unit)
    (hdf5_dir_exists : Bool) (walk : List (String × String)) :
    Except String (List EmbOut) :=
  if wsi_folder_exists = false then
    Except.error "WSI folder does not exist"
  else
    match model_download with
    | Except.error m => Except.error m
    | Except.ok _ =>
      match patching with
      | Except.error m => Except.error m
      | Except.ok _ =>
        if hdf5_dir_exists = false then
          Except.ok []
        else
          Except.ok (walk.filterMap (fun rf =>
            if endswith_h5 rf.2 then
              some ⟨splitext_stem rf.2, rf.1 ++ "/" ++ rf.2, "success", none⟩
            else none))

/-- One upstream item as consumed by the report-generation stage: the
fields of an embeddings-stage item that `generate_report` reads
(report_gen.py lines 70-73).  `hdf5_path` is optional because upstream
items carrying `status = skipped` or `error` may have no path. -/
structure EmbItem where
  wsi_name : String
  hdf5_path : Option String
  status : String
deriving DecidableEq, Repr

/-- One item of the list returned by the report-generation stage
(report_gen.py lines 75-80, 88-93, 122-127, 132-137). -/
structure ReportEntry where
  wsi_name : String
  report_path : Option String
  status : String
  error : Option String
deriving DecidableEq, Repr

/-- Embedding of the per-item body of the loop in `generate_report`
(report_gen.py lines 69-137): an item with status `error` yields a
`skipped` entry (lines 73-81); otherwise `os.path.exists(hdf5_path)` is
evaluated outside any `try` block, so a `None` path raises a `TypeError`
that escapes the stage (line 86); a missing feature file yields an `error`
entry (lines 86-94); otherwise the guarded feature-load/generate/save block
(lines 96-137) either appends a `success` entry or catches its own
exception into an `error` entry — modelled by the oracle `gen`. -/
def process_item (files : List (String × String))
    (gen : String → Except String String) (reports_dir : String)
    (item : EmbItem) : Except String ReportEntry :=
  if item.status == "error" then
    Except.ok ⟨item.wsi_name, none, "skipped", some "Embedding step failed"⟩
  else
    match item.hdf5_path with
    | none =>
        Except.error
          "TypeError: stat: path should be string, bytes, os.PathLike or integer, not NoneType"
    | some p =>
      match readFile files p with
      | none =>
          Except.ok ⟨item.wsi_name, none, "error", some "Missing HDF5 features"⟩
      | some _ =>
        match gen item.wsi_name with
        | Except.ok _text =>
            Except.ok ⟨item.wsi_name,
              some (reports_dir ++ "/" ++ item.wsi_name ++ ".txt"),
              "success", none⟩
        | Except.error e =>
            Except.ok ⟨item.wsi_name, none, "error", some e⟩

/-- The `for item in embeddings` loop of `generate_report`: each item is
processed in order; an exception escaping `process_item` aborts the whole
stage. -/
def report_loop (files : List (String × String))
    (gen : String → Except String String) (reports_dir : String) :
    List EmbItem → Except String (List ReportEntry)
  | [] => Except.ok []
  | item :: rest =>
    match process_item files gen reports_dir item with
    | Except.error m => Except.error m
    | Except.ok entry =>
      match report_loop files gen reports_dir rest with
      | Except.error m => Except.error m
      | Except.ok entries => Except.ok (entry :: entries)

/-- Embedding of `generate_report` (report_gen.py lines 10-139): an empty
upstream list short-circuits to an empty result (lines 22-24); then the
HistoGPT model download and state-dict load (lines 26-59), which may raise,
are summarized by the `model_load` oracle; then the per-item loop runs. -/
def generate_report (files : List (String × String))
    (gen : String → Except String String) (reports_dir : String)
    (model_load : Except String Unit) (embeddings : List EmbItem) :
    Except String (List ReportEntry) :=
  if embeddings.isEmpty then
    Except.ok []
  else
    match model_load with
    | Except.error m => Except.error m
    | Except.ok _ => report_loop files gen reports_dir embeddings

/-- One upstream item as consumed by the aggregation stage: the fields of a
report-generation item that `aggregate_reports` reads (aggregate.py lines
27-28).  A `None` path is possible for `skipped`/`error` upstream items. -/
structure ReportItem where
  wsi_name : String
  report_path : Option String
deriving DecidableEq, Repr

/-- The CSV file the aggregation stage writes: a header row and the data
rows. -/
structure CsvFile where
  header : List String
  rows : List (List String)
deriving DecidableEq, Repr

/-- Reading one report's source file in `aggregate_reports`: a `None` path
makes `os.path.exists` raise a `TypeError`, which the surrounding
`except Exception` catches (aggregate.py lines 30-42), and a missing or
unreadable file is likewise recorded as failed, so all three cases
collapse to `none`. -/
def report_read (files : List (String × String)) (rep : ReportItem) :
    Option String :=
  match rep.report_path with
  | none => none
  | some p => readFile files p

/-- Embedding of `aggregate_reports` (aggregate.py lines 6-62): an empty
upstream list returns early WITHOUT writing any CSV (lines 13-15, modelled
as `none`); otherwise each readable report becomes a row, failures are
skipped (lines 26-42), and the CSV — header-only when every read failed
(lines 44-49) — is written (line 53). -/
def aggregate_reports (files : List (String × String))
    (reports : List ReportItem) : Option CsvFile :=
  if reports.isEmpty then
    none
  else
    some ⟨["wsi_name", "report_text"],
      reports.filterMap (fun rep =>
        (report_read files rep).map (fun text => [rep.wsi_name, text]))⟩

/-- The number of upstream items whose source file is missing or unreadable
(the `failed_files` list of aggregate.py). -/
def failed_count (files : List (String × String))
    (reports : List ReportItem) : Nat :=
  (reports.filter (fun rep => (report_read files rep).isNone)).length

/-! Helper lemmas (shared; not tied to any single claim). -/

/-- Creating a directory makes exactly that path exist in addition to what
existed before. -/
theorem os_path_exists_makedirs (fs : FileSystem) (p q : String) :
    os_path_exists (os_makedirs fs p) q = ((p == q) || os_path_exists fs q) := by
  simp [os_path_exists, os_makedirs]

/-- The number of aggregated rows plus the number of failed files equals the
number of upstream report items. -/
theorem aggregate_rows_add_failed (files : List (String × String))
    (reports : List ReportItem) :
    (reports.filterMap (fun rep =>
        (report_read files rep).map (fun text => [rep.wsi_name, text]))).length
      + failed_count files reports = reports.length := by
  induction reports with
  | nil => simp [failed_count]
  | cons r rs ih =>
    unfold failed_count at ih ⊢
    cases h : report_read files r <;>
      simp [List.filterMap_cons, List.filter_cons, h] <;> omega

/-- Lookup across a dict merge looks in the right-hand dict first. -/
theorem dictGet_append {α : Type} (a b : List (String × α)) (k : String) :
    dictGet (a ++ b) k =
      match dictGet b k with
      | some v => some v
      | none => dictGet a k := by
  induction a with
  | nil =>
    simp only [List.nil_append]
    cases dictGet b k <;> rfl
  | cons p a ih =>
    obtain ⟨k1, v1⟩ := p
    simp only [List.cons_append]
    conv_lhs => rw [dictGet]
    rw [ih]
    cases dictGet b k <;> rfl

/-- Lookup in a dict built over a field list, for an absent key. -/
theorem dictGet_map_not_mem {α : Type} (g : String → α) (fields : List String)
    (f : String) (hf : f ∉ fields) :
    dictGet (fields.map (fun x => (x, g x))) f = none := by
  induction fields with
  | nil => rfl
  | cons k rest ih =>
    have hfr : f ∉ rest := fun h => hf (List.mem_cons_of_mem _ h)
    have hkf : (k == f) = false := by
      have : k ≠ f := fun h => hf (h ▸ List.mem_cons_self _ _)
      simp [this]
    simp only [List.map_cons]
    unfold dictGet
    rw [ih hfr]
    simp [hkf]

/-- Lookup in a dict built over a field list, for a present key. -/
theorem dictGet_map_mem {α : Type} (g : String → α) (fields : List String)
    (f : String) (hf : f ∈ fields) :
    dictGet (fields.map (fun x => (x, g x))) f = some (g f) := by
  induction fields with
  | nil => cases hf
  | cons k rest ih =>
    simp only [List.map_cons]
    unfold dictGet
    by_cases hr : f ∈ rest
    · rw [ih hr]
    · have hk : k = f := by
        rcases List.mem_cons.mp hf with h | h
        · exact h.symm
        · exact absurd h hr
      rw [dictGet_map_not_mem g rest f hr]
      simp [hk]

/-- A declared field whose user value is `None` contributes nothing to the
stripped user dict. -/
theorem user_dict_cons_none {α : Type} (u : String → Option α) (k : String)
    (rest : List String) (hu : u k = none) :
    drop_none_entries (user_config_dict (k :: rest) u) =
      drop_none_entries (user_config_dict rest u) := by
  simp [user_config_dict, drop_none_entries, List.filterMap_cons, hu]

/-- A declared field whose user value is present heads the stripped user
dict. -/
theorem user_dict_cons_some {α : Type} (u : String → Option α) (k : String)
    (rest : List String) (v : α) (hu : u k = some v) :
    drop_none_entries (user_config_dict (k :: rest) u) =
      (k, v) :: drop_none_entries (user_config_dict rest u) := by
  simp [user_config_dict, drop_none_entries, List.filterMap_cons, hu]

/-- Lookup in the None-stripped user dict, for an absent key. -/
theorem dictGet_user_not_mem {α : Type} (u : String → Option α)
    (fields : List String) (f : String) (hf : f ∉ fields) :
    dictGet (drop_none_entries (user_config_dict fields u)) f = none := by
  induction fields with
  | nil => rfl
  | cons k rest ih =>
    have hfr : f ∉ rest := fun h => hf (List.mem_cons_of_mem _ h)
    have hkf : (k == f) = false := by
      have : k ≠ f := fun h => hf (h ▸ List.mem_cons_self _ _)
      simp [this]
    cases hu : u k with
    | none =>
      rw [user_dict_cons_none u k rest hu]
      exact ih hfr
    | some v =>
      rw [user_dict_cons_some u k rest v hu]
      conv_lhs => rw [dictGet]
      rw [ih hfr]
      simp [hkf]

/-- Lookup in the None-stripped user dict, for a declared key: the result is
exactly the user's optional value for that key. -/
theorem dictGet_user_mem {α : Type} (u : String → Option α)
    (fields : List String) (f : String) (hf : f ∈ fields) :
    dictGet (drop_none_entries (user_config_dict fields u)) f = u f := by
  induction fields with
  | nil => cases hf
  | cons k rest ih =>
    by_cases hr : f ∈ rest
    · cases hu : u k with
      | none =>
        rw [user_dict_cons_none u k rest hu]
        exact ih hr
      | some v =>
        rw [user_dict_cons_some u k rest v hu]
        conv_lhs => rw [dictGet]
        rw [ih hr]
        cases huf : u f with
        | some w => rfl
        | none =>
          have hkf : (k == f) = false := by
            have hknf : k ≠ f := by
              intro h
              rw [h, huf] at hu
              cases hu
            simp [hknf]
          simp [hkf]
    · have hk : k = f := by
        rcases List.mem_cons.mp hf with h | h
        · exact h.symm
        · exact absurd h hr
      cases hu : u k with
      | none =>
        rw [user_dict_cons_none u k rest hu]
        rw [dictGet_user_not_mem u rest f hr, ← hk, hu]
      | some v =>
        rw [user_dict_cons_some u k rest v hu]
        conv_lhs => rw [dictGet]
        rw [dictGet_user_not_mem u rest f hr]
        have hbeq : (k == f) = true := by simp [hk]
        rw [← hk, hu]
        simp [hbeq]

/-! Theorems settling the claims. -/

/-- C9: `update_task_status` is total with respect to exceptions — for every
task record and every outcome of the underlying store write, it returns
normally (the failure is turned into a log message) and never propagates an
exception to its caller. -/
theorem C9_update_task_status_total (o : StoreOutcome)
    (writes : List TaskRecord) (rec : TaskRecord) :
    ∃ p, update_task_status o writes rec = Except.ok p := by
  cases o <;> exact ⟨_, rfl⟩

/-- C1: behavior of the code at the failing input.  When the store write of
the initial `queued` record raises, `update_task_status` swallows the
exception, so `start_pipeline` still generates a task id and returns it
successfully, with no record persisted — the claimed fail-back to the
caller does not happen (the `except redis.exceptions.RedisError` handler in
`start_pipeline` is unreachable). -/
theorem C1_code_behavior :
    (start_pipeline ⟨["data/wsi"]⟩ (StoreOutcome.err "connection refused")
        ⟨"data/wsi", "data/out"⟩ 0).response = Except.ok "task-id" ∧
    (start_pipeline ⟨["data/wsi"]⟩ (StoreOutcome.err "connection refused")
        ⟨"data/wsi", "data/out"⟩ 0).task_id_generated = true ∧
    (start_pipeline ⟨["data/wsi"]⟩ (StoreOutcome.err "connection refused")
        ⟨"data/wsi", "data/out"⟩ 0).writes = [] :=
  ⟨rfl, rfl, rfl⟩

/-- C10: whenever `run_embeddings` returns normally, every item of the
returned list has status `success` and no error — per-item `error` or
`skipped` entries never occur (any stage-level problem raises instead). -/
theorem C10_run_embeddings_all_success (wsiE : Bool)
    (md pt : Except String Unit) (h5E : Bool)
    (walk : List (String × String)) (l : List EmbOut)
    (h : run_embeddings wsiE md pt h5E walk = Except.ok l) :
    ∀ e ∈ l, e.status = "success" ∧ e.error = none := by
  intro e he
  unfold run_embeddings at h
  cases wsiE with
  | false => simp at h
  | true =>
    cases md with
    | error m => simp at h
    | ok u =>
      cases pt with
      | error m => simp at h
      | ok v =>
        cases h5E with
        | false =>
          simp at h
          subst h
          simp at he
        | true =>
          simp at h
          subst h
          simp only [List.mem_filterMap] at he
          obtain ⟨a, _, ha⟩ := he
          by_cases hend : endswith_h5 a.2 = true
          · rw [if_pos hend] at ha
            cases ha
            exact ⟨rfl, rfl⟩
          · rw [if_neg hend] at ha
            cases ha

/-- C10 witness: a concrete run returning one `.h5`-derived item, on which
the theorem applies. -/
theorem C10_witness :
    run_embeddings true (Except.ok ()) (Except.ok ()) true [("d", "a.h5")] =
      Except.ok [⟨"a", "d/a.h5", "success", none⟩] ∧
    ∀ e ∈ [(⟨"a", "d/a.h5", "success", none⟩ : EmbOut)],
      e.status = "success" ∧ e.error = none :=
  ⟨rfl, C10_run_embeddings_all_success true (Except.ok ()) (Except.ok ())
    true [("d", "a.h5")] [⟨"a", "d/a.h5", "success", none⟩] rfl⟩

/-- C3 counterexample: on an empty upstream list (N = 0, so M = N), the
aggregation stage returns early and produces no CSV at all, not a
header-only CSV as the claim states. -/
theorem C3_counterexample : aggregate_reports [] [] = none := rfl

/-- C3 amended: for every NONEMPTY list of N upstream report items of which
M have a missing or unreadable source file (including items with no path),
the aggregation stage produces a CSV with the header
`[wsi_name, report_text]` and exactly N - M rows; in particular when
M = N with N at least 1, a well-formed header-only CSV is produced.  (For
the empty list the stage returns without writing any CSV.) -/
theorem C3_amended (files : List (String × String))
    (reports : List ReportItem) (h : reports ≠ []) :
    ∃ csv, aggregate_reports files reports = some csv ∧
      csv.header = ["wsi_name", "report_text"] ∧
      csv.rows.length = reports.length - failed_count files reports := by
  have hne : reports.isEmpty = false := by
    cases reports with
    | nil => exact absurd rfl h
    | cons r rs => rfl
  unfold aggregate_reports
  rw [hne]
  simp only [Bool.false_eq_true, if_false]
  refine ⟨_, rfl, rfl, ?_⟩
  dsimp only
  have := aggregate_rows_add_failed files reports
  omega

/-- C3 witness: two upstream items, one readable and one with no path,
yielding one row. -/
theorem C3_witness :
    ([⟨"w1", some "p1"⟩, ⟨"w2", none⟩] : List ReportItem) ≠ [] ∧
    ∃ csv, aggregate_reports [("p1", "hello")]
        [⟨"w1", some "p1"⟩, ⟨"w2", none⟩] = some csv ∧
      csv.header = ["wsi_name", "report_text"] ∧
      csv.rows.length =
        ([⟨"w1", some "p1"⟩, ⟨"w2", none⟩] : List ReportItem).length -
          failed_count [("p1", "hello")] [⟨"w1", some "p1"⟩, ⟨"w2", none⟩] :=
  ⟨by decide,
    C3_amended [("p1", "hello")] [⟨"w1", some "p1"⟩, ⟨"w2", none⟩] (by decide)⟩

/-- C4 counterexample: an upstream item marked `skipped` (with a path that
does not exist) is NOT appended as a `skipped` entry — the stage falls
through the `status == "error"` check and records it as an `error` entry
for the missing feature file. -/
theorem C4_counterexample :
    generate_report [] (fun _ => Except.error "unused") "reports"
        (Except.ok ()) [⟨"w1", some "w1.h5", "skipped"⟩] =
      Except.ok [⟨"w1", none, "error", some "Missing HDF5 features"⟩] ∧
    ("error" : String) ≠ "skipped" :=
  ⟨rfl, by decide⟩

/-- C4 amended: only upstream items marked `error` are treated as
non-actionable: such an item is appended to the stage's output as a
`skipped` entry and processing continues with the remaining items (items
marked `skipped` instead fall through to ordinary processing, and with a
missing or absent feature path they produce an `error` entry or a raised
`TypeError`). -/
theorem C4_amended (files : List (String × String))
    (gen : String → Except String String) (reports_dir : String)
    (e : EmbItem) (rest : List EmbItem) (he : e.status = "error") :
    generate_report files gen reports_dir (Except.ok ()) (e :: rest) =
      (generate_report files gen reports_dir (Except.ok ()) rest).map
        (fun es =>
          (⟨e.wsi_name, none, "skipped", some "Embedding step failed"⟩ :
            ReportEntry) :: es) := by
  have hp : process_item files gen reports_dir e =
      Except.ok ⟨e.wsi_name, none, "skipped", some "Embedding step failed"⟩ := by
    unfold process_item
    rw [he]
    rfl
  have hl : report_loop files gen reports_dir (e :: rest) =
      match report_loop files gen reports_dir rest with
      | Except.error m => Except.error m
      | Except.ok es =>
          Except.ok
            ((⟨e.wsi_name, none, "skipped", some "Embedding step failed"⟩ :
              ReportEntry) :: es) := by
    conv_lhs => rw [report_loop]
    rw [hp]
  unfold generate_report
  simp only [List.isEmpty_cons, Bool.false_eq_true, if_false]
  rw [hl]
  cases rest with
  | nil => rfl
  | cons r rs =>
    simp only [List.isEmpty_cons, Bool.false_eq_true, if_false]
    cases hr : report_loop files gen reports_dir (r :: rs) <;>
      simp [hr, Except.map]

/-- C4 witness: an `error`-marked item followed by one ordinary item whose
feature file is readable. -/
theorem C4_witness :
    (⟨"w0", none, "error"⟩ : EmbItem).status = "error" ∧
    generate_report [("w1.h5", "feats")] (fun _ => Except.ok "text") "reports"
        (Except.ok ()) [⟨"w0", none, "error"⟩, ⟨"w1", some "w1.h5", "success"⟩] =
      (generate_report [("w1.h5", "feats")] (fun _ => Except.ok "text")
          "reports" (Except.ok ()) [⟨"w1", some "w1.h5", "success"⟩]).map
        (fun es =>
          (⟨"w0", none, "skipped", some "Embedding step failed"⟩ :
            ReportEntry) :: es) :=
  ⟨rfl, C4_amended [("w1.h5", "feats")] (fun _ => Except.ok "text") "reports"
    ⟨"w0", none, "error"⟩ [⟨"w1", some "w1.h5", "success"⟩] rfl⟩

/-- C7: for every set of declared fields and every triple of defaults,
environment settings and caller-supplied overrides, the merged
configuration dict gives each declared field the caller's value when the
caller supplied a non-null value, otherwise the environment value when the
environment sets one, otherwise the default — user over environment over
defaults, with null/absent user fields never overriding. -/
theorem C7_merge_precedence {α : Type} (fields : List String)
    (defaults : String → α) (env user : String → Option α) (f : String)
    (hf : f ∈ fields) :
    dictGet (merged_pipeline_data fields defaults env user) f =
      some (spec_merged_value defaults env user f) := by
  unfold merged_pipeline_data spec_merged_value
  rw [dictGet_append]
  rw [dictGet_user_mem user fields f hf]
  cases hu : user f with
  | some v => rfl
  | none =>
    unfold settings_dict
    rw [dictGet_map_mem (fun x => (env x).getD (defaults x)) fields f hf]
    cases env f <;> rfl

/-- C7 witness: one declared field with an environment value overridden by
the caller, evaluated concretely. -/
theorem C7_witness :
    ("batch_size" : String) ∈ ["wsi_folder", "batch_size"] ∧
    dictGet
        (merged_pipeline_data ["wsi_folder", "batch_size"] (fun _ => (32 : Nat))
          (fun x => if x == "batch_size" then some 16 else none)
          (fun x => if x == "batch_size" then some 64 else none))
        "batch_size" =
      some (spec_merged_value (fun _ => (32 : Nat))
        (fun x => if x == "batch_size" then some 16 else none)
        (fun x => if x == "batch_size" then some 64 else none) "batch_size") :=
  ⟨by decide,
    C7_merge_precedence ["wsi_folder", "batch_size"] (fun _ => (32 : Nat))
      (fun x => if x == "batch_size" then some 16 else none)
      (fun x => if x == "batch_size" then some 64 else none) "batch_size"
      (by decide)⟩

/-- C8: a submission whose merged configuration fails validation (the WSI
input folder does not exist) fails synchronously with an error response,
with no task record persisted and no task id generated; and every
submission creates the configured output folder as a side effect of
validation. -/
theorem C8_validation_precheck (fs0 : FileSystem) (o0 : StoreOutcome)
    (s : MergedSettings) (clock : Nat) :
    (os_path_exists fs0 s.wsi_folder = false →
      (∃ m, (start_pipeline fs0 o0 s clock).response = Except.error m) ∧
      (start_pipeline fs0 o0 s clock).writes = [] ∧
      (start_pipeline fs0 o0 s clock).task_id_generated = false) ∧
    os_path_exists (start_pipeline fs0 o0 s clock).fs s.output_folder = true := by
  unfold start_pipeline validate_pipeline_settings
  cases hv : os_path_exists fs0 s.wsi_folder with
  | false =>
    simp [os_path_exists_makedirs]
  | true =>
    constructor
    · intro h
      cases h
    · simp only [if_true]
      rw [os_path_exists_makedirs, hv, Bool.or_true]
      simp only [Bool.true_eq_false, if_false]
      cases o0 <;> simp [update_task_status, tryCatchAll, redis_set,
        Except.map, os_path_exists_makedirs]

/-- C8 witness: a submission against an empty filesystem, where the WSI
folder cannot exist. -/
theorem C8_witness :
    ((∃ m, (start_pipeline ⟨[]⟩ StoreOutcome.ok ⟨"w", "o"⟩ 0).response =
        Except.error m) ∧
      (start_pipeline ⟨[]⟩ StoreOutcome.ok ⟨"w", "o"⟩ 0).writes = [] ∧
      (start_pipeline ⟨[]⟩ StoreOutcome.ok ⟨"w", "o"⟩ 0).task_id_generated =
        false) ∧
    os_path_exists (start_pipeline ⟨[]⟩ StoreOutcome.ok ⟨"w", "o"⟩ 0).fs "o" =
      true :=
  ⟨(C8_validation_precheck ⟨[]⟩ StoreOutcome.ok ⟨"w", "o"⟩ 0).1 rfl,
    (C8_validation_precheck ⟨[]⟩ StoreOutcome.ok ⟨"w", "o"⟩ 0).2⟩

/-- C2: for a task whose stage 2 (embeddings) fails on every attempt under
the retry policy with max_retries 2, while stage 1 succeeds, the stage-2
function is invoked exactly 3 times, the report-generation and aggregation
stages are never invoked, and the final persisted record has status
`failed`, carries the stage-2 error message (that of the last attempt), and
has `end_time` set. -/
theorem C2_stage2_exhaustion (s1 s3 s4 : Nat → Except String Unit)
    (emsg : Nat → String) (writes0 : List TaskRecord) (clock : Nat)
    (h1 : s1 0 = Except.ok ()) :
    (run_pipeline_in_background s1 (fun n => Except.error (emsg n)) s3 s4
        StoreOutcome.ok StoreOutcome.ok writes0 clock).2.1.c2 = 3 ∧
    (run_pipeline_in_background s1 (fun n => Except.error (emsg n)) s3 s4
        StoreOutcome.ok StoreOutcome.ok writes0 clock).2.1.c3 = 0 ∧
    (run_pipeline_in_background s1 (fun n => Except.error (emsg n)) s3 s4
        StoreOutcome.ok StoreOutcome.ok writes0 clock).2.1.c4 = 0 ∧
    (run_pipeline_in_background s1 (fun n => Except.error (emsg n)) s3 s4
        StoreOutcome.ok StoreOutcome.ok writes0 clock).1.getLast? =
      some ⟨TaskStatus.failed, clock, some (clock + 1), some (emsg 2), none⟩ := by
  have e1 : runWithRetry s1 0 0 = (1, Except.ok ()) := by
    unfold runWithRetry
    rw [h1]
  have e2 : runWithRetry (fun n => Except.error (emsg n)) 2 0 =
      (3, Except.error (emsg 2)) := rfl
  have ec : execute_chain s1 (fun n => Except.error (emsg n)) s3 s4 =
      (⟨1, 3, 0, 0⟩, Except.error (emsg 2)) := by
    unfold execute_chain
    dsimp only [process_embeddings_retry]
    rw [e1, e2]
  unfold run_pipeline_in_background
  rw [ec]
  dsimp only [runStatusWrite, update_task_status, tryCatchAll, redis_set,
    Except.map]
  refine ⟨rfl, rfl, rfl, ?_⟩
  rw [List.getLast?_concat]

/-- C2 witness: a concrete exhausted run with a constant stage-2 error. -/
theorem C2_witness :
    (fun _ : Nat => (Except.ok () : Except String Unit)) 0 = Except.ok () ∧
    (run_pipeline_in_background (fun _ => Except.ok ())
        (fun n => Except.error ((fun _ => "boom") n)) (fun _ => Except.ok ())
        (fun _ => Except.ok ()) StoreOutcome.ok StoreOutcome.ok [] 0).2.1.c2 =
      3 ∧
    (run_pipeline_in_background (fun _ => Except.ok ())
        (fun n => Except.error ((fun _ => "boom") n)) (fun _ => Except.ok ())
        (fun _ => Except.ok ()) StoreOutcome.ok StoreOutcome.ok [] 0).2.1.c3 =
      0 ∧
    (run_pipeline_in_background (fun _ => Except.ok ())
        (fun n => Except.error ((fun _ => "boom") n)) (fun _ => Except.ok ())
        (fun _ => Except.ok ()) StoreOutcome.ok StoreOutcome.ok [] 0).2.1.c4 =
      0 ∧
    (run_pipeline_in_background (fun _ => Except.ok ())
        (fun n => Except.error ((fun _ => "boom") n)) (fun _ => Except.ok ())
        (fun _ => Except.ok ()) StoreOutcome.ok StoreOutcome.ok [] 0).1.getLast? =
      some ⟨TaskStatus.failed, 0, some 1, some "boom", none⟩ :=
  ⟨rfl,
    C2_stage2_exhaustion (fun _ => Except.ok ()) (fun _ => Except.ok ())
      (fun _ => Except.ok ()) (fun _ => "boom") [] 0 rfl⟩

/-- C5: for a task whose every stage succeeds (and whose store writes all
succeed), the sequence of records persisted for that task carries exactly
the statuses `queued`, `running`, `completed`; the final record has
`end_time` at least `start_time`, the `results` field present and the
`error` field absent. -/
theorem C5_success_lifecycle (fs0 : FileSystem) (s : MergedSettings)
    (s1 s2 s3 s4 : Nat → Except String Unit)
    (hfs : os_path_exists fs0 s.wsi_folder = true)
    (h1 : s1 0 = Except.ok ()) (h2 : s2 0 = Except.ok ())
    (h3 : s3 0 = Except.ok ()) (h4 : s4 0 = Except.ok ()) :
    (task_lifecycle fs0 StoreOutcome.ok StoreOutcome.ok StoreOutcome.ok s
        s1 s2 s3 s4).1.map TaskRecord.status =
      [TaskStatus.queued, TaskStatus.running, TaskStatus.completed] ∧
    ∃ rec, (task_lifecycle fs0 StoreOutcome.ok StoreOutcome.ok StoreOutcome.ok
        s s1 s2 s3 s4).1.getLast? = some rec ∧
      ∃ t, rec.end_time = some t ∧ rec.start_time ≤ t ∧
        rec.results = some true ∧ rec.error = none := by
  have e1 : runWithRetry s1 0 0 = (1, Except.ok ()) := by
    unfold runWithRetry
    rw [h1]
  have e2 : runWithRetry s2 2 0 = (1, Except.ok ()) := by
    unfold runWithRetry
    rw [h2]
  have e3 : runWithRetry s3 2 0 = (1, Except.ok ()) := by
    unfold runWithRetry
    rw [h3]
  have e4 : runWithRetry s4 0 0 = (1, Except.ok ()) := by
    unfold runWithRetry
    rw [h4]
  have ec : execute_chain s1 s2 s3 s4 = (⟨1, 1, 1, 1⟩, Except.ok ()) := by
    unfold execute_chain
    dsimp only [process_embeddings_retry, process_report_gen_retry]
    rw [e1, e2, e3, e4]
  have hsub : start_pipeline fs0 StoreOutcome.ok s 0 =
      ⟨Except.ok "task-id",
        os_makedirs (os_makedirs fs0 s.output_folder) s.output_folder,
        [⟨TaskStatus.queued, 0, none, none, none⟩], true, 1⟩ := by
    unfold start_pipeline validate_pipeline_settings
    simp [hfs, os_path_exists_makedirs, update_task_status, tryCatchAll,
      redis_set, Except.map]
  have hw : (task_lifecycle fs0 StoreOutcome.ok StoreOutcome.ok StoreOutcome.ok
      s s1 s2 s3 s4).1 =
      [⟨TaskStatus.queued, 0, none, none, none⟩,
        ⟨TaskStatus.running, 1, none, none, none⟩,
        ⟨TaskStatus.completed, 1, some 2, none, some true⟩] := by
    unfold task_lifecycle
    rw [hsub]
    dsimp only
    unfold run_pipeline_in_background
    rw [ec]
    simp [runStatusWrite, update_task_status, tryCatchAll, redis_set,
      Except.map]
  rw [hw]
  refine ⟨rfl, ⟨TaskStatus.completed, 1, some 2, none, some true⟩, ?_, 2, rfl,
    ?_, rfl, rfl⟩
  · rfl
  · decide

/-- C5 witness: a concrete all-success lifecycle. -/
theorem C5_witness :
    os_path_exists ⟨["w"]⟩ "w" = true ∧
    (task_lifecycle ⟨["w"]⟩ StoreOutcome.ok StoreOutcome.ok StoreOutcome.ok
        ⟨"w", "o"⟩ (fun _ => Except.ok ()) (fun _ => Except.ok ())
        (fun _ => Except.ok ()) (fun _ => Except.ok ())).1.map
        TaskRecord.status =
      [TaskStatus.queued, TaskStatus.running, TaskStatus.completed] ∧
    ∃ rec, (task_lifecycle ⟨["w"]⟩ StoreOutcome.ok StoreOutcome.ok
        StoreOutcome.ok ⟨"w", "o"⟩ (fun _ => Except.ok ())
        (fun _ => Except.ok ()) (fun _ => Except.ok ())
        (fun _ => Except.ok ())).1.getLast? = some rec ∧
      ∃ t, rec.end_time = some t ∧ rec.start_time ≤ t ∧
        rec.results = some true ∧ rec.error = none :=
  ⟨rfl,
    C5_success_lifecycle ⟨["w"]⟩ ⟨"w", "o"⟩ (fun _ => Except.ok ())
      (fun _ => Except.ok ()) (fun _ => Except.ok ()) (fun _ => Except.ok ())
      rfl rfl rfl rfl rfl⟩

/-- C6: for every task lifecycle — all store outcomes, stage behaviors and
validation results included — the sequence of statuses persisted for the
task's key is monotone along queued, running, terminal, and once a terminal
status is written no later write changes it. -/
theorem C6_monotone_status (fs0 : FileSystem) (o0 o1 o2 : StoreOutcome)
    (s : MergedSettings) (s1 s2 s3 s4 : Nat → Except String Unit) :
    monotoneStatuses
      ((task_lifecycle fs0 o0 o1 o2 s s1 s2 s3 s4).1.map TaskRecord.status) := by
  rcases hc : execute_chain s1 s2 s3 s4 with ⟨counts, out⟩
  cases hv : os_path_exists fs0 s.wsi_folder <;>
    cases o0 <;> cases o1 <;> cases o2 <;> cases out <;>
      simp [task_lifecycle, start_pipeline, validate_pipeline_settings,
        run_pipeline_in_background, runStatusWrite, update_task_status,
        tryCatchAll, redis_set, Except.map, os_path_exists_makedirs, hv, hc] <;>
      decide

end HistoFlow
